import Mathlib

/-!
Verification development for the `nyc-taxi-pulse` dashboard.

The Python sources (`src/data_loader.py`, `src/visualizations.py`, `app.py`)
are shallowly embedded here:

* dataframes become `List` of row structures;
* float columns become `ℚ` (rounding follows numpy's round-half-to-even);
* timestamps become seconds-since-epoch `ℤ` values, dates become epoch-day
  `ℤ` values (1970-01-01 is day 0, a Thursday);
* nullable columns become `Option`;
* `np.random` draws and `df.sample` are threaded in as explicit parameters,
  since the claims under study never depend on the drawn values;
* disk and network effects of the loader become explicit state passing over
  a `Disk` record together with `Except`-valued fetch results.
-/

namespace NycTaxiPulse

/-- Floor of a rational, computed directly on the reduced fraction
(`q.den` is positive, so flooring division of `num` by `den` is the floor). -/
def ratFloor (q : ℚ) : ℤ := Int.fdiv q.num (q.den : ℤ)

/-- Round-half-to-even to an integer, the rounding mode used by
`numpy`/`pandas` `.round()`. -/
def roundHalfEven (q : ℚ) : ℤ :=
  let f : ℤ := ratFloor q
  let r : ℚ := q - (f : ℚ)
  if r < 1/2 then f
  else if (1 : ℚ)/2 < r then f + 1
  else if f % 2 = 0 then f else f + 1

/-- `Series.round(2)`: round to two decimal places, half to even. -/
def round2 (q : ℚ) : ℚ := ((roundHalfEven (q * 100) : ℤ) : ℚ) / 100

/-- `round(x, 1)`: round to one decimal place, half to even. -/
def round1 (q : ℚ) : ℚ := ((roundHalfEven (q * 10) : ℤ) : ℚ) / 10

/-- `dt.day_name()` for an epoch-day number (day 0 = 1970-01-01, a Thursday). -/
def day_name (d : ℤ) : String :=
  let k := d.emod 7
  if k = 0 then "Thursday"
  else if k = 1 then "Friday"
  else if k = 2 then "Saturday"
  else if k = 3 then "Sunday"
  else if k = 4 then "Monday"
  else if k = 5 then "Tuesday"
  else "Wednesday"

/-- `dt.month` for an epoch-day number, via the standard civil-calendar
conversion (Gregorian, proleptic). -/
def civil_month (z : ℤ) : ℤ :=
  let z' := z + 719468
  let era := Int.fdiv z' 146097
  let doe := z' - era * 146097
  let yoe := Int.fdiv (doe - Int.fdiv doe 1460 + Int.fdiv doe 36524 - Int.fdiv doe 146096) 365
  let doy := doe - (365 * yoe + Int.fdiv yoe 4 - Int.fdiv yoe 100)
  let mp := Int.fdiv (5 * doy + 2) 153
  if mp < 10 then mp + 3 else mp - 9

/-- `pandas.Series.unique()`: the distinct values of a column in order of
first appearance. -/
def uniqueFirst [DecidableEq α] : List α → List α
  | [] => []
  | a :: as => a :: (uniqueFirst as).filter (fun b => decide ¬(b = a))

/-- Mean of a rational column (`Series.mean()`); the empty case never arises
for the group-by groups built below. -/
def ratMean (l : List ℚ) : ℚ := if l.length = 0 then 0 else l.sum / (l.length : ℚ)

/-- The distinct keys of a `groupby`, in order of first appearance. -/
def group_keys [DecidableEq κ] (key : α → κ) (l : List α) : List κ :=
  uniqueFirst (l.map key)

/-- The rows of one `groupby` group. -/
def group_rows [DecidableEq κ] (key : α → κ) (l : List α) (k : κ) : List α :=
  l.filter (fun x => decide (key x = k))

/-! ## Data model: `src/data_loader.py` rows -/

/-- One raw trip record, i.e. one row of the TLC parquet file restricted to
the column list selected in `DataLoader.load_taxi_data`.  Timestamps are
seconds since the epoch; they are `Option` because the raw file can contain
missing datetimes (dropped by `_clean_taxi_data`). -/
structure RawRow where
  tpep_pickup_datetime : Option ℤ
  tpep_dropoff_datetime : Option ℤ
  passenger_count : ℚ
  trip_distance : ℚ
  fare_amount : ℚ
  extra : ℚ
  mta_tax : ℚ
  tip_amount : ℚ
  tolls_amount : ℚ
  total_amount : ℚ
  payment_type : ℤ
  PULocationID : ℤ
  DOLocationID : ℤ
  deriving DecidableEq, Repr

/-- A cleaned row: the raw columns plus the derived columns added by
`DataLoader._clean_taxi_data`. -/
structure CleanRow extends RawRow where
  date : ℤ
  hour : ℤ
  day_of_week : String
  month : ℤ
  trip_duration_minutes : ℚ
  tip_percentage : ℚ
  price_per_mile : ℚ
  payment_type_name : String
  deriving DecidableEq, Repr

/-- The `payment_map` dict of `_clean_taxi_data`, composed with the
`.fillna('Unknown')` applied to the mapped column: codes 1-5 are named,
every other code maps to NaN and is filled with `'Unknown'`. -/
def payment_map (c : ℤ) : String :=
  if c = 1 then "Credit Card"
  else if c = 2 then "Cash"
  else if c = 3 then "No Charge"
  else if c = 4 then "Dispute"
  else if c = 5 then "Unknown"
  else "Unknown"

/-- Derivation of the computed columns of `_clean_taxi_data` for one row.
Returns `none` exactly when a datetime is missing (such rows were already
removed by the `dropna` step). -/
def toCleanRow (r : RawRow) : Option CleanRow :=
  match r.tpep_pickup_datetime, r.tpep_dropoff_datetime with
  | some p, some d =>
      some { r with
        date := Int.fdiv p 86400
        hour := (p.emod 86400) / 3600
        day_of_week := day_name (Int.fdiv p 86400)
        month := civil_month (Int.fdiv p 86400)
        trip_duration_minutes := round2 (((d - p : ℤ) : ℚ) / 60)
        tip_percentage := round2 (r.tip_amount / r.fare_amount * 100)
        price_per_mile := round2 (r.fare_amount / r.trip_distance)
        payment_type_name := payment_map r.payment_type }
  | _, _ => none

/-- `DataLoader._clean_taxi_data`: drop rows with missing datetimes, filter
the outlier ranges on fare / distance / passengers, derive the temporal and
fare columns, then filter the invalid trip durations. -/
def _clean_taxi_data (df : List RawRow) : List CleanRow :=
  let df1 := df.filter (fun r =>
    r.tpep_pickup_datetime.isSome && r.tpep_dropoff_datetime.isSome)
  let df2 := df1.filter (fun r => decide (0 < r.fare_amount ∧ r.fare_amount ≤ 300))
  let df3 := df2.filter (fun r => decide (0 < r.trip_distance ∧ r.trip_distance ≤ 100))
  let df4 := df3.filter (fun r => decide (0 < r.passenger_count ∧ r.passenger_count ≤ 8))
  let cleaned := df4.filterMap toCleanRow
  cleaned.filter (fun c =>
    decide (0 < c.trip_duration_minutes ∧ c.trip_duration_minutes ≤ 480))

/-! ## Zones (`load_nyc_zones_geojson`, `create_zone_lookup`,
`enrich_taxi_data_with_zones`) -/

/-- Name and borough stored for one zone id in the zone lookup dict. -/
structure ZoneInfo where
  zone_name : String
  borough : String
  deriving DecidableEq, Repr

/-- The `properties` object of one GeoJSON feature, restricted to the keys
read by `create_zone_lookup`; each key may be absent (`props.get`). -/
structure ZoneFeatureProps where
  zone_id : Option ℤ
  zone_name : Option String
  borough : Option String
  deriving DecidableEq, Repr

/-- The GeoJSON document: the part the loader inspects is its feature list's
`properties` objects. -/
structure GeoJson where
  features : List ZoneFeatureProps
  deriving DecidableEq, Repr

/-- `DataLoader.create_zone_lookup`: a dict from zone id to name/borough.
The dict is represented by its insertion list; lookups below take the last
binding of a key, matching Python's overwrite-on-insert semantics.  A falsy
(`None`) GeoJSON produces the empty lookup. -/
def create_zone_lookup (g : Option GeoJson) : List (Option ℤ × ZoneInfo) :=
  match g with
  | none => []
  | some g =>
    g.features.map (fun f =>
      (f.zone_id, ZoneInfo.mk (f.zone_name.getD "Unknown") (f.borough.getD "Unknown")))

/-- `zone_lookup.get(k)`: last binding of `k`, if any. -/
def zone_lookup_get (zl : List (Option ℤ × ZoneInfo)) (k : Option ℤ) : Option ZoneInfo :=
  (zl.reverse.find? (fun p => decide (p.1 = k))).map Prod.snd

/-- `zone_lookup.get(x, {}).get('zone_name', 'Unknown')`. -/
def zone_name_of (zl : List (Option ℤ × ZoneInfo)) (x : ℤ) : String :=
  ((zone_lookup_get zl (some x)).map ZoneInfo.zone_name).getD "Unknown"

/-- `zone_lookup.get(x, {}).get('borough', 'Unknown')`. -/
def borough_of (zl : List (Option ℤ × ZoneInfo)) (x : ℤ) : String :=
  ((zone_lookup_get zl (some x)).map ZoneInfo.borough).getD "Unknown"

/-- A cleaned row with the four zone/borough columns added by
`enrich_taxi_data_with_zones`. -/
structure EnrichedRow extends CleanRow where
  pickup_zone : String
  pickup_borough : String
  dropoff_zone : String
  dropoff_borough : String
  deriving DecidableEq, Repr

/-- Per-row mapping performed by `enrich_taxi_data_with_zones`. -/
def enrichRow (zl : List (Option ℤ × ZoneInfo)) (c : CleanRow) : EnrichedRow :=
  { c with
    pickup_zone := zone_name_of zl c.PULocationID
    pickup_borough := borough_of zl c.PULocationID
    dropoff_zone := zone_name_of zl c.DOLocationID
    dropoff_borough := borough_of zl c.DOLocationID }

/-- `DataLoader.enrich_taxi_data_with_zones`. -/
def enrich_taxi_data_with_zones (df : List CleanRow)
    (zl : List (Option ℤ × ZoneInfo)) : List EnrichedRow :=
  df.map (enrichRow zl)

/-! ## Weather (`generate_synthetic_weather`, `merge_weather_data`) -/

/-- One day's draws from `np.random` used by `generate_synthetic_weather`:
the `normal(0, 5)` noise, the `random()` uniform and the `exponential(0.3)`
draw.  The draws are indexed by the position of the date in the unique-date
list, matching the sequential consumption of the generator. -/
structure WeatherDraw where
  normalNoise : ℚ
  uniformDraw : ℚ
  expDraw : ℚ
  deriving DecidableEq, Repr

/-- One row of the synthetic weather dataframe. -/
structure WeatherRow where
  date : ℤ
  temperature : ℚ
  is_rainy : Bool
  precipitation_inches : ℚ
  deriving DecidableEq, Repr

/-- The weather row built for one date.  `base_temp` abstracts the seasonal
curve `35 + 30*sin(2*pi*dayofyear/365)`, which is not expressible over `ℚ`;
nothing below depends on its values. -/
def mkWeatherRow (base_temp : ℤ → ℚ) (dr : WeatherDraw) (d : ℤ) : WeatherRow :=
  let is_rainy := decide (dr.uniformDraw < 15/100)
  { date := d
    temperature := round1 (base_temp d + dr.normalNoise)
    is_rainy := is_rainy
    precipitation_inches := round2 (if is_rainy then dr.expDraw else 0) }

/-- `DataLoader.generate_synthetic_weather`: one weather row per distinct
date of the taxi table, in order of first appearance
(`df['date'].unique()`). -/
def generate_synthetic_weather (base_temp : ℤ → ℚ) (draws : ℕ → WeatherDraw)
    (df : List EnrichedRow) : List WeatherRow :=
  let dates := uniqueFirst (df.map (fun r => r.date))
  dates.enum.map (fun p => mkWeatherRow base_temp (draws p.1) p.2)

/-- An enriched row with the three weather columns brought in by the left
join of `merge_weather_data`; they are `Option` because a left join emits
nulls for unmatched rows. -/
structure MergedRow extends EnrichedRow where
  temperature : Option ℚ
  is_rainy : Option Bool
  precipitation_inches : Option ℚ
  deriving DecidableEq, Repr

/-- `DataLoader.merge_weather_data`: left join of the taxi table with the
weather table on the date column.  Each taxi row is paired with every
matching weather row; a taxi row without a match is kept once with null
weather columns. -/
def merge_weather_data (taxi : List EnrichedRow) (weather : List WeatherRow) :
    List MergedRow :=
  taxi.flatMap (fun t =>
    let ms := weather.filter (fun w => decide (w.date = t.date))
    if ms.isEmpty then
      [{ t with temperature := none, is_rainy := none, precipitation_inches := none }]
    else
      ms.map (fun w =>
        { t with
          temperature := some w.temperature
          is_rainy := some w.is_rainy
          precipitation_inches := some w.precipitation_inches }))

/-! ## Pre-aggregations (`create_aggregations`) -/

/-- One row of the `daily` pre-aggregation. -/
structure DailyAgg where
  date : ℤ
  total_fare : ℚ
  avg_fare : ℚ
  avg_distance : ℚ
  avg_duration : ℚ
  avg_tip_pct : ℚ
  avg_passengers : ℚ
  trip_count : ℕ
  deriving DecidableEq, Repr

/-- One row of the `hourly` pre-aggregation. -/
structure HourlyAgg where
  date_hour : ℤ
  total_fare : ℚ
  avg_fare : ℚ
  trip_count : ℕ
  deriving DecidableEq, Repr

/-- One row of the `hour_dow` pre-aggregation. -/
structure HourDowAgg where
  hour : ℤ
  day_of_week : String
  trip_count : ℕ
  avg_fare : ℚ
  deriving DecidableEq, Repr

/-- One row of the `borough` pre-aggregation. -/
structure BoroughAgg where
  borough : String
  total_fare : ℚ
  avg_fare : ℚ
  avg_distance : ℚ
  trip_count : ℕ
  rainy_proportion : ℚ
  deriving DecidableEq, Repr

/-- One row of the `payment` pre-aggregation. -/
structure PaymentAgg where
  payment_type : String
  total_fare : ℚ
  avg_fare : ℚ
  avg_tip_pct : ℚ
  trip_count : ℕ
  deriving DecidableEq, Repr

/-- The dict of pre-aggregated dataframes built by `create_aggregations`. -/
structure Aggregations where
  daily : List DailyAgg
  hourly : List HourlyAgg
  hour_dow : List HourDowAgg
  borough : List BoroughAgg
  payment : List PaymentAgg
  deriving DecidableEq, Repr

/-- The `date_hour` column added inside `create_aggregations`
(`dt.floor('h')` of the pickup timestamp); cleaned rows always carry a
pickup timestamp. -/
def date_hour_of (m : MergedRow) : ℤ :=
  match m.tpep_pickup_datetime with
  | some p => p - p.emod 3600
  | none => 0

/-- `DataLoader.create_aggregations`.  Group order follows first appearance
of each key; the key order of the resulting tables is not relied upon by
anything below. -/
def create_aggregations (df : List MergedRow) : Aggregations :=
  let daily := (group_keys (fun m : MergedRow => m.date) df).map (fun k =>
    let g := group_rows (fun m : MergedRow => m.date) df k
    ({ date := k,
       total_fare := (g.map (fun m => m.fare_amount)).sum,
       avg_fare := ratMean (g.map (fun m => m.fare_amount)),
       avg_distance := ratMean (g.map (fun m => m.trip_distance)),
       avg_duration := ratMean (g.map (fun m => m.trip_duration_minutes)),
       avg_tip_pct := ratMean (g.map (fun m => m.tip_percentage)),
       avg_passengers := ratMean (g.map (fun m => m.passenger_count)),
       trip_count := g.length } : DailyAgg))
  let hourly := (group_keys date_hour_of df).map (fun k =>
    let g := group_rows date_hour_of df k
    ({ date_hour := k,
       total_fare := (g.map (fun m => m.fare_amount)).sum,
       avg_fare := ratMean (g.map (fun m => m.fare_amount)),
       trip_count := g.length } : HourlyAgg))
  let hour_dow := (group_keys (fun m : MergedRow => (m.hour, m.day_of_week)) df).map (fun k =>
    let g := group_rows (fun m : MergedRow => (m.hour, m.day_of_week)) df k
    ({ hour := k.1,
       day_of_week := k.2,
       trip_count := g.length,
       avg_fare := ratMean (g.map (fun m => m.fare_amount)) } : HourDowAgg))
  let borough := (group_keys (fun m : MergedRow => m.pickup_borough) df).map (fun k =>
    let g := group_rows (fun m : MergedRow => m.pickup_borough) df k
    ({ borough := k,
       total_fare := (g.map (fun m => m.fare_amount)).sum,
       avg_fare := ratMean (g.map (fun m => m.fare_amount)),
       avg_distance := ratMean (g.map (fun m => m.trip_distance)),
       trip_count := g.length,
       rainy_proportion := ratMean ((g.filterMap (fun m => m.is_rainy)).map
         (fun b => if b then 1 else 0)) } : BoroughAgg))
  let payment := (group_keys (fun m : MergedRow => m.payment_type_name) df).map (fun k =>
    let g := group_rows (fun m : MergedRow => m.payment_type_name) df k
    ({ payment_type := k,
       total_fare := (g.map (fun m => m.fare_amount)).sum,
       avg_fare := ratMean (g.map (fun m => m.fare_amount)),
       avg_tip_pct := ratMean (g.map (fun m => m.tip_percentage)),
       trip_count := g.length } : PaymentAgg))
  { daily := daily, hourly := hourly, hour_dow := hour_dow,
    borough := borough, payment := payment }

/-! ## The loader as a state machine over disk and network
(`load_taxi_data`, `load_nyc_zones_geojson`, `load_all_data`, and the
startup code at the top of `app.py`). -/

/-- The `data` dict assembled by `load_all_data` and pickled to the cache
file. -/
structure LoadedData where
  raw : List MergedRow
  geojson : Option GeoJson
  zone_lookup : List (Option ℤ × ZoneInfo)
  aggregations : Aggregations
  deriving DecidableEq, Repr

/-- Contents of the pickle cache file on disk: either a readable snapshot or
bytes whose unpickling raises (the `except` branch of the cache read). -/
inductive CacheFile
  | good (d : LoadedData)
  | corrupt (msg : String)
  deriving DecidableEq, Repr

/-- The two local files the loader touches: the raw parquet download under
`data/raw/` and the pickle snapshot under `data/cache/`, for the fixed
`(year, month, sample_size)` parameters used by the app. -/
structure Disk where
  rawParquet : Option (List RawRow)
  cacheBlob : Option CacheFile
  deriving DecidableEq, Repr

/-- The disk before any run: neither file exists. -/
def Disk.empty : Disk := { rawParquet := none, cacheBlob := none }

/-- Result of one `load_all_data` run: the returned data (`None` on
failure), the disk afterwards, and how many network fetches of each remote
input the run performed. -/
structure LoadResult where
  data : Option LoadedData
  disk : Disk
  parquetFetches : ℕ
  geoFetches : ℕ
  deriving DecidableEq, Repr

/-- `if len(df) > sample_size: df = df.sample(n=sample_size, ...)`; the
random sampling itself is an opaque parameter. -/
def sample_if_large (sampler : List RawRow → List RawRow) (sample_size : ℕ)
    (df : List RawRow) : List RawRow :=
  if sample_size < df.length then sampler df else df

/-- `DataLoader.load_taxi_data`: read the raw parquet from the local cache
file when it exists, otherwise fetch it (writing the download to disk),
then sample and clean.  A fetch failure is caught and an empty dataframe is
returned.  The third component counts network fetch attempts. -/
def load_taxi_data (disk : Disk) (net : Except String (List RawRow))
    (sampler : List RawRow → List RawRow) (sample_size : ℕ) :
    List CleanRow × Disk × ℕ :=
  match disk.rawParquet with
  | some raw => (_clean_taxi_data (sample_if_large sampler sample_size raw), disk, 0)
  | none =>
    match net with
    | .error _ => ([], disk, 1)
    | .ok raw =>
        (_clean_taxi_data (sample_if_large sampler sample_size raw),
         { disk with rawParquet := some raw }, 1)

/-- `DataLoader.load_nyc_zones_geojson`: a straight network fetch, `None`
on any failure; the caller accounts for the one fetch attempt. -/
def load_nyc_zones_geojson (net : Except String GeoJson) : Option GeoJson :=
  net.toOption

/-- `load_all_data`: serve the pickle snapshot when caching is on and the
cache file reads back, otherwise recompute everything from source (taxi
download, zones download, enrichment, weather, aggregations) and try to
write the snapshot; a failed snapshot write is caught and ignored. -/
def load_all_data (disk : Disk) (use_cache : Bool)
    (netParquet : Except String (List RawRow)) (sampler : List RawRow → List RawRow)
    (sample_size : ℕ) (netGeo : Except String GeoJson)
    (base_temp : ℤ → ℚ) (draws : ℕ → WeatherDraw) (cacheWriteOk : Bool) : LoadResult :=
  match use_cache, disk.cacheBlob with
  | true, some (.good d) =>
      { data := some d, disk := disk, parquetFetches := 0, geoFetches := 0 }
  | _, _ =>
    let tr := load_taxi_data disk netParquet sampler sample_size
    let taxi := tr.1
    let disk1 := tr.2.1
    let pf := tr.2.2
    if taxi.isEmpty then
      { data := none, disk := disk1, parquetFetches := pf, geoFetches := 0 }
    else
      let geojson := load_nyc_zones_geojson netGeo
      let zone_lookup := create_zone_lookup geojson
      let enriched := enrich_taxi_data_with_zones taxi zone_lookup
      let weather := generate_synthetic_weather base_temp draws enriched
      let merged := merge_weather_data enriched weather
      let aggs := create_aggregations merged
      let d : LoadedData :=
        { raw := merged, geojson := geojson, zone_lookup := zone_lookup,
          aggregations := aggs }
      let disk2 := if cacheWriteOk then { disk1 with cacheBlob := some (.good d) } else disk1
      { data := some d, disk := disk2, parquetFetches := pf, geoFetches := 1 }

/-- Outcome of the module-level startup code of `app.py`: either
`sys.exit(1)` after the printed failure message, or a running dashboard
holding the loaded data package. -/
inductive AppOutcome
  | aborted (msg : String)
  | serving (d : LoadedData)
  deriving DecidableEq, Repr

/-- Whether the startup outcome is a running dashboard. -/
def AppOutcome.isServing : AppOutcome → Bool
  | .serving _ => true
  | .aborted _ => false

/-- `app.py` lines 27-31: `data_package = load_all_data(...)`, and
`sys.exit(1)` when it is `None`. -/
def app_startup (disk : Disk) (use_cache : Bool)
    (netParquet : Except String (List RawRow)) (sampler : List RawRow → List RawRow)
    (sample_size : ℕ) (netGeo : Except String GeoJson)
    (base_temp : ℤ → ℚ) (draws : ℕ → WeatherDraw) (cacheWriteOk : Bool) : AppOutcome :=
  match (load_all_data disk use_cache netParquet sampler sample_size netGeo
      base_temp draws cacheWriteOk).data with
  | none => .aborted "✗ Failed to load data. Exiting."
  | some d => .serving d

/-! ## The dashboard callbacks (`app.py` section 5) -/

/-- The value of the weather dropdown: the string `'all'` or one of the two
boolean option values. -/
inductive WeatherSel
  | all
  | cond (b : Bool)
  deriving DecidableEq, Repr

/-- The six values delivered to `update_filtered_data` by the five filter
controls (the date picker contributes start and end). -/
structure FilterInput where
  start_date : ℤ
  end_date : ℤ
  hour_lo : ℤ
  hour_hi : ℤ
  payment_type : String
  weather : WeatherSel
  day_type : String
  deriving DecidableEq, Repr

/-- `df['day_of_week'].isin(['Saturday', 'Sunday'])` for one row. -/
def is_weekend_day (r : MergedRow) : Bool :=
  decide (r.day_of_week = "Saturday" ∨ r.day_of_week = "Sunday")

/-- Filter step 1 of `update_filtered_data`: date range. -/
def apply_date_filter (inp : FilterInput) (df : List MergedRow) : List MergedRow :=
  df.filter (fun r => decide (inp.start_date ≤ r.date ∧ r.date ≤ inp.end_date))

/-- Filter step 2: hour range. -/
def apply_hour_filter (inp : FilterInput) (df : List MergedRow) : List MergedRow :=
  df.filter (fun r => decide (inp.hour_lo ≤ r.hour ∧ r.hour ≤ inp.hour_hi))

/-- Filter step 3: payment type, skipped for `'all'`. -/
def apply_payment_filter (inp : FilterInput) (df : List MergedRow) : List MergedRow :=
  if inp.payment_type ≠ "all" then
    df.filter (fun r => decide (r.payment_type_name = inp.payment_type))
  else df

/-- Filter step 4: weather, skipped for `'all'`. -/
def apply_weather_filter (inp : FilterInput) (df : List MergedRow) : List MergedRow :=
  match inp.weather with
  | .all => df
  | .cond b => df.filter (fun r => decide (r.is_rainy = some b))

/-- Filter step 5: day type (`'weekday'` / `'weekend'`, anything else is a
no-op). -/
def apply_day_type_filter (inp : FilterInput) (df : List MergedRow) : List MergedRow :=
  if inp.day_type = "weekday" then df.filter (fun r => ! is_weekend_day r)
  else if inp.day_type = "weekend" then df.filter (fun r => is_weekend_day r)
  else df

/-- `update_filtered_data` (`app.py` lines 392-423): copy the shared table
and apply the five filters in sequence. -/
def update_filtered_data (taxi_df : List MergedRow) (inp : FilterInput) :
    List MergedRow :=
  let df := taxi_df
  apply_day_type_filter inp (apply_weather_filter inp (apply_payment_filter inp
    (apply_hour_filter inp (apply_date_filter inp df))))

/-- The five filter predicates of `update_filtered_data`, one per filter
control (the skipped `'all'` cases are constant-true). -/
def date_pred (inp : FilterInput) (r : MergedRow) : Bool :=
  decide (inp.start_date ≤ r.date ∧ r.date ≤ inp.end_date)

/-- Hour-range predicate of filter step 2. -/
def hour_pred (inp : FilterInput) (r : MergedRow) : Bool :=
  decide (inp.hour_lo ≤ r.hour ∧ r.hour ≤ inp.hour_hi)

/-- Payment-type predicate of filter step 3. -/
def payment_pred (inp : FilterInput) (r : MergedRow) : Bool :=
  decide (inp.payment_type = "all" ∨ r.payment_type_name = inp.payment_type)

/-- Weather predicate of filter step 4. -/
def weather_pred (inp : FilterInput) (r : MergedRow) : Bool :=
  match inp.weather with
  | .all => true
  | .cond b => decide (r.is_rainy = some b)

/-- Day-type predicate of filter step 5. -/
def day_type_pred (inp : FilterInput) (r : MergedRow) : Bool :=
  if inp.day_type = "weekday" then ! is_weekend_day r
  else if inp.day_type = "weekend" then is_weekend_day r
  else true

/-- The five filter predicates in the order the callback applies them. -/
def filter_preds (inp : FilterInput) : List (MergedRow → Bool) :=
  [date_pred inp, hour_pred inp, payment_pred inp, weather_pred inp, day_type_pred inp]

/-- Applying a list of predicate filters left to right. -/
def apply_pred_filters (ps : List (MergedRow → Bool)) (df : List MergedRow) :
    List MergedRow :=
  ps.foldl (fun d p => d.filter p) df

/-- Whether the selected weather value constrains a row's `is_rainy`
column: no constraint for `'all'`, equality otherwise. -/
def weather_matches : WeatherSel → Option Bool → Prop
  | .all, _ => True
  | .cond b, ir => ir = some b

instance : ∀ (w : WeatherSel) (ir : Option Bool), Decidable (weather_matches w ir)
  | .all, _ => .isTrue trivial
  | .cond b, ir => inferInstanceAs (Decidable (ir = some b))

/-- The conjunction of the five filter predicates as the claims state them:
date in range, hour in range, payment type matches unless `'all'`, weather
matches unless `'all'`, and weekend membership according to the day type. -/
def row_passes (inp : FilterInput) (r : MergedRow) : Prop :=
  (inp.start_date ≤ r.date ∧ r.date ≤ inp.end_date) ∧
  (inp.hour_lo ≤ r.hour ∧ r.hour ≤ inp.hour_hi) ∧
  (inp.payment_type ≠ "all" → r.payment_type_name = inp.payment_type) ∧
  weather_matches inp.weather r.is_rainy ∧
  (inp.day_type = "weekday" → ¬(r.day_of_week = "Saturday" ∨ r.day_of_week = "Sunday")) ∧
  (inp.day_type = "weekend" → (r.day_of_week = "Saturday" ∨ r.day_of_week = "Sunday"))

instance (inp : FilterInput) (r : MergedRow) : Decidable (row_passes inp r) := by
  unfold row_passes
  infer_instance

/-- Server-side state visible to the callbacks: the module-level shared
table and the browser-side `dcc.Store` holding the filtered dataset (the
JSON round-trip through the store is value-faithful and modeled as the
table itself). -/
structure AppState where
  taxi_df : List MergedRow
  filtered_store : Option (List MergedRow)
  deriving DecidableEq, Repr

/-- The data content underlying each figure a callback returns. -/
inductive Figure
  | storeData (df : List MergedRow)
  | metrics (trips : ℕ) (avg_fare : ℚ) (avg_distance : ℚ) (total_revenue : ℚ)
  | timeSeries (daily : List (ℤ × ℕ))
  | heatmap (cells : List ((ℤ × String) × ℕ × ℚ))
  | weatherImpact (rows : List (Bool × ℕ × ℚ × ℚ))
  | scatter (points : List MergedRow)
  | boroughBox (rows : List MergedRow)
  | paymentBreakdown (rows : List (String × ℕ × ℚ × ℚ))
  | emptyFigure

/-- The pickup date used by `update_time_series`
(`df['tpep_pickup_datetime'].dt.date`). -/
def pickup_date_of (m : MergedRow) : ℤ :=
  match m.tpep_pickup_datetime with
  | some p => Int.fdiv p 86400
  | none => 0

/-- One callback invocation: dispatch on which output is being recomputed.
`scatterChanged` carries the opaque 5000-row sampler of `update_scatter`. -/
inductive Callback
  | filtersChanged (inp : FilterInput)
  | metricsChanged
  | timeSeriesChanged
  | heatmapChanged
  | weatherChartChanged
  | scatterChanged (sampler : List MergedRow → List MergedRow)
  | boroughChanged
  | paymentChanged

/-- Execute one callback against the current state, returning the new state
and the recomputed output.  Only `update_filtered_data` writes anything,
and it writes the store, never the shared table. -/
def run_callback (st : AppState) : Callback → AppState × Figure
  | .filtersChanged inp =>
      let df := st.taxi_df
      let filtered := update_filtered_data df inp
      ({ st with filtered_store := some filtered }, .storeData filtered)
  | .metricsChanged =>
      match st.filtered_store with
      | none => (st, .metrics 0 0 0 0)
      | some df =>
          (st, .metrics df.length (ratMean (df.map (fun m => m.fare_amount)))
            (ratMean (df.map (fun m => m.trip_distance)))
            ((df.map (fun m => m.fare_amount)).sum))
  | .timeSeriesChanged =>
      match st.filtered_store with
      | none => (st, .emptyFigure)
      | some df =>
          (st, .timeSeries ((group_keys pickup_date_of df).map (fun k =>
            (k, (group_rows pickup_date_of df k).length))))
  | .heatmapChanged =>
      match st.filtered_store with
      | none => (st, .emptyFigure)
      | some df =>
          (st, .heatmap ((group_keys (fun m : MergedRow => (m.hour, m.day_of_week)) df).map
            (fun k =>
              let g := group_rows (fun m : MergedRow => (m.hour, m.day_of_week)) df k
              (k, g.length, ratMean (g.map (fun m => m.fare_amount))))))
  | .weatherChartChanged =>
      match st.filtered_store with
      | none => (st, .emptyFigure)
      | some df =>
          (st, .weatherImpact ((uniqueFirst (df.filterMap (fun m => m.is_rainy))).map
            (fun b =>
              let g := df.filter (fun m => decide (m.is_rainy = some b))
              (b, g.length, ratMean (g.map (fun m => m.fare_amount)),
               ratMean (g.map (fun m => m.trip_distance))))))
  | .scatterChanged sampler =>
      match st.filtered_store with
      | none => (st, .emptyFigure)
      | some df =>
          (st, .scatter (if 5000 < df.length then sampler df else df))
  | .boroughChanged =>
      match st.filtered_store with
      | none => (st, .emptyFigure)
      | some df => (st, .boroughBox df)
  | .paymentChanged =>
      match st.filtered_store with
      | none => (st, .emptyFigure)
      | some df =>
          (st, .paymentBreakdown ((group_keys (fun m : MergedRow => m.payment_type_name) df).map
            (fun k =>
              let g := group_rows (fun m : MergedRow => m.payment_type_name) df k
              (k, g.length, ratMean (g.map (fun m => m.fare_amount)),
               ratMean (g.map (fun m => m.tip_amount))))))

/-- The state after an arbitrary sequence of callback invocations. -/
def run_callbacks (st : AppState) (cs : List Callback) : AppState :=
  cs.foldl (fun s c => (run_callback s c).1) st

/-- The data computed by the recompute (cache-miss) path of
`load_all_data`, as a function of the disk and the fetch results; used to
relate runs that differ only in cache state. -/
def miss_data (disk : Disk) (netParquet : Except String (List RawRow))
    (sampler : List RawRow → List RawRow) (n : ℕ) (netGeo : Except String GeoJson)
    (bt : ℤ → ℚ) (draws : ℕ → WeatherDraw) : Option LoadedData :=
  let taxi := (load_taxi_data disk netParquet sampler n).1
  if taxi.isEmpty then none
  else
    let geojson := load_nyc_zones_geojson netGeo
    let zone_lookup := create_zone_lookup geojson
    let enriched := enrich_taxi_data_with_zones taxi zone_lookup
    let weather := generate_synthetic_weather bt draws enriched
    let merged := merge_weather_data enriched weather
    some { raw := merged, geojson := geojson, zone_lookup := zone_lookup,
           aggregations := create_aggregations merged }

/-! ## Concrete sample data used by the witnesses -/

/-- A concrete raw trip: pickup 2023-01-01 00:00:00 UTC (epoch 1672531200,
a Sunday), a 10-minute, 2-mile, $10 credit-card trip with a $2 tip. -/
def sampleRaw : RawRow :=
  { tpep_pickup_datetime := some 1672531200,
    tpep_dropoff_datetime := some 1672531800,
    passenger_count := 1, trip_distance := 2, fare_amount := 10,
    extra := 0, mta_tax := 0, tip_amount := 2, tolls_amount := 0, total_amount := 12,
    payment_type := 1, PULocationID := 4, DOLocationID := 7 }

/-- The cleaned row `_clean_taxi_data` derives from `sampleRaw`. -/
def sampleCleanRow : CleanRow :=
  { toRawRow := sampleRaw, date := 19358, hour := 0, day_of_week := "Sunday",
    month := 1, trip_duration_minutes := 10, tip_percentage := 20,
    price_per_mile := 5, payment_type_name := "Credit Card" }

/-- A one-feature GeoJSON document. -/
def sampleGeo : GeoJson :=
  ⟨[{ zone_id := some 4, zone_name := some "Midtown", borough := some "Manhattan" }]⟩

/-- A fixed weather draw (not rainy). -/
def sampleDraw : WeatherDraw := { normalNoise := 0, uniformDraw := 1, expDraw := 0 }

/-- A concrete fully-merged row. -/
def sampleMergedRow : MergedRow :=
  { toEnrichedRow :=
      { toCleanRow := sampleCleanRow, pickup_zone := "Midtown",
        pickup_borough := "Manhattan", dropoff_zone := "Unknown",
        dropoff_borough := "Unknown" },
    temperature := some 30, is_rainy := some false, precipitation_inches := some 0 }

/-- A concrete one-row shared table. -/
def sampleTaxiTable : List MergedRow := [sampleMergedRow]

/-- A concrete filter setting. -/
def sampleInp : FilterInput :=
  { start_date := 19358, end_date := 19390, hour_lo := 0, hour_hi := 23,
    payment_type := "all", weather := .all, day_type := "all" }

/-- The row invariant of C6: the value-range checks of `_clean_taxi_data`
plus presence of both datetimes. -/
def good_clean_row (c : CleanRow) : Bool :=
  decide ((0 < c.fare_amount ∧ c.fare_amount ≤ 300) ∧
    (0 < c.trip_distance ∧ c.trip_distance ≤ 100) ∧
    (0 < c.passenger_count ∧ c.passenger_count ≤ 8) ∧
    (0 < c.trip_duration_minutes ∧ c.trip_duration_minutes ≤ 480) ∧
    c.tpep_pickup_datetime.isSome = true ∧ c.tpep_dropoff_datetime.isSome = true)

/-! ## General lemmas -/

theorem bool_ext {a b : Bool} (h : (a = true) ↔ (b = true)) : a = b := by
  cases a <;> cases b <;> simp_all

theorem apply_date_filter_eq (inp : FilterInput) (df : List MergedRow) :
    apply_date_filter inp df = df.filter (date_pred inp) := rfl

theorem apply_hour_filter_eq (inp : FilterInput) (df : List MergedRow) :
    apply_hour_filter inp df = df.filter (hour_pred inp) := rfl

theorem apply_payment_filter_eq (inp : FilterInput) (df : List MergedRow) :
    apply_payment_filter inp df = df.filter (payment_pred inp) := by
  unfold apply_payment_filter payment_pred
  by_cases h : inp.payment_type = "all" <;> simp [h]

theorem apply_weather_filter_eq (inp : FilterInput) (df : List MergedRow) :
    apply_weather_filter inp df = df.filter (weather_pred inp) := by
  unfold apply_weather_filter weather_pred
  cases hw : inp.weather <;> simp

theorem apply_day_type_filter_eq (inp : FilterInput) (df : List MergedRow) :
    apply_day_type_filter inp df = df.filter (day_type_pred inp) := by
  unfold apply_day_type_filter day_type_pred
  by_cases h1 : inp.day_type = "weekday" <;> by_cases h2 : inp.day_type = "weekend" <;>
    simp [h1, h2]

theorem apply_pred_filters_eq (ps : List (MergedRow → Bool)) (df : List MergedRow) :
    apply_pred_filters ps df = df.filter (fun r => ps.all (fun p => p r)) := by
  induction ps generalizing df with
  | nil => simp [apply_pred_filters]
  | cons p ps ih =>
      simp only [apply_pred_filters, List.foldl_cons] at *
      rw [ih, List.filter_filter]
      apply List.filter_congr
      intro x _
      simp [Bool.and_comm]

theorem perm_all_eq {α : Type} {l₁ l₂ : List α} (h : l₁.Perm l₂) (f : α → Bool) :
    l₁.all f = l₂.all f := by
  apply bool_ext
  simp only [List.all_eq_true]
  exact ⟨fun H x hx => H x (h.mem_iff.mpr hx), fun H x hx => H x (h.mem_iff.mp hx)⟩

theorem update_filtered_data_eq (taxi : List MergedRow) (inp : FilterInput) :
    update_filtered_data taxi inp =
      taxi.filter (fun r => (filter_preds inp).all (fun p => p r)) := by
  have h : update_filtered_data taxi inp = apply_pred_filters (filter_preds inp) taxi := by
    simp [update_filtered_data, apply_pred_filters, filter_preds, List.foldl_cons,
      List.foldl_nil, apply_date_filter_eq, apply_hour_filter_eq, apply_payment_filter_eq,
      apply_weather_filter_eq, apply_day_type_filter_eq]
  rw [h, apply_pred_filters_eq]

theorem filter_preds_all_eq (inp : FilterInput) (r : MergedRow) :
    (filter_preds inp).all (fun p => p r) = decide (row_passes inp r) := by
  apply bool_ext
  simp only [filter_preds, List.all_cons, List.all_nil, Bool.and_true, Bool.and_eq_true,
    decide_eq_true_eq]
  unfold row_passes date_pred hour_pred payment_pred weather_pred day_type_pred
    is_weekend_day weather_matches
  cases hw : inp.weather <;>
    by_cases h1 : inp.day_type = "weekday" <;>
    by_cases h2 : inp.day_type = "weekend" <;>
    by_cases h3 : inp.payment_type = "all" <;>
    simp_all

theorem countP_and_not_add (l : List MergedRow) (p q : MergedRow → Bool) :
    l.countP (fun r => p r && ! q r) + l.countP (fun r => p r && q r) = l.countP p := by
  induction l with
  | nil => simp
  | cons x xs ih =>
      by_cases hp : p x <;> by_cases hq : q x <;>
        simp [List.countP_cons, hp, hq] <;> omega

/-- The filtering callback equals one filter by the conjunction of the five
predicates, stated over `row_passes`. -/
theorem update_eq_row_passes (taxi : List MergedRow) (inp : FilterInput) :
    update_filtered_data taxi inp = taxi.filter (fun r => decide (row_passes inp r)) := by
  rw [update_filtered_data_eq]
  exact List.filter_congr (fun x _ => filter_preds_all_eq inp x)

/-! ## Claims about the filtering callback -/

/-- C1: for every filter setting and every in-memory trip table, the
filtered dataset produced by `update_filtered_data` is exactly the rows of
the shared table satisfying the conjunction of the five predicates (date
range, hour range, payment type unless `'all'`, weather unless `'all'`,
day-type weekend membership), and its row count equals the number of rows
satisfying those predicates. -/
theorem claim_C1_filter_semantics (taxi : List MergedRow) (inp : FilterInput) :
    update_filtered_data taxi inp = taxi.filter (fun r => decide (row_passes inp r)) ∧
    (update_filtered_data taxi inp).length =
      taxi.countP (fun r => decide (row_passes inp r)) := by
  refine ⟨update_eq_row_passes taxi inp, ?_⟩
  rw [update_eq_row_passes taxi inp, List.countP_eq_length_filter]

/-- C2: the five filter predicates of `update_filtered_data` commute —
applying them in any order yields the same filtered dataset as the
callback itself. -/
theorem claim_C2_filter_order_insensitive (taxi : List MergedRow) (inp : FilterInput)
    (ps : List (MergedRow → Bool)) (h : ps.Perm (filter_preds inp)) :
    apply_pred_filters ps taxi = update_filtered_data taxi inp := by
  rw [apply_pred_filters_eq, update_filtered_data_eq]
  exact List.filter_congr (fun x _ => perm_all_eq h (fun p => p x))

/-- Witness for C2: the five filters applied in reverse order agree with
the callback on a concrete table. -/
theorem claim_C2_witness :
    apply_pred_filters ((filter_preds sampleInp).reverse) sampleTaxiTable =
      update_filtered_data sampleTaxiTable sampleInp :=
  claim_C2_filter_order_insensitive sampleTaxiTable sampleInp _
    (List.reverse_perm (filter_preds sampleInp))

/-- Splitting `row_passes` on the day type: the weekday setting is the
`'all'` setting plus non-weekend, the weekend setting is the `'all'`
setting plus weekend. -/
theorem row_passes_day_type_split (inp : FilterInput) (r : MergedRow) :
    (row_passes { inp with day_type := "weekday" } r ↔
      (row_passes { inp with day_type := "all" } r ∧
       ¬(r.day_of_week = "Saturday" ∨ r.day_of_week = "Sunday"))) ∧
    (row_passes { inp with day_type := "weekend" } r ↔
      (row_passes { inp with day_type := "all" } r ∧
       (r.day_of_week = "Saturday" ∨ r.day_of_week = "Sunday"))) := by
  unfold row_passes
  constructor
  · constructor
    · rintro ⟨a, b, c, w, h5, h6⟩
      exact ⟨⟨a, b, c, w, fun h => absurd h (by simp), fun h => absurd h (by simp)⟩,
        h5 rfl⟩
    · rintro ⟨⟨a, b, c, w, -, -⟩, hnw⟩
      exact ⟨a, b, c, w, fun _ => hnw, fun h => absurd h (by simp)⟩
  · constructor
    · rintro ⟨a, b, c, w, h5, h6⟩
      exact ⟨⟨a, b, c, w, fun h => absurd h (by simp), fun h => absurd h (by simp)⟩,
        h6 rfl⟩
    · rintro ⟨⟨a, b, c, w, -, -⟩, hw⟩
      exact ⟨a, b, c, w, fun h => absurd h (by simp), fun _ => hw⟩

/-- The pointwise Boolean form of `row_passes_day_type_split`. -/
theorem row_passes_day_type_split_bool (inp : FilterInput) (r : MergedRow) :
    decide (row_passes { inp with day_type := "weekday" } r) =
      (decide (row_passes { inp with day_type := "all" } r) && ! is_weekend_day r) ∧
    decide (row_passes { inp with day_type := "weekend" } r) =
      (decide (row_passes { inp with day_type := "all" } r) && is_weekend_day r) := by
  obtain ⟨hW, hE⟩ := row_passes_day_type_split inp r
  constructor <;> apply bool_ext <;>
    by_cases hA : row_passes { inp with day_type := "all" } r <;>
    by_cases hw : (r.day_of_week = "Saturday" ∨ r.day_of_week = "Sunday") <;>
    simp [hW, hE, hA, hw, is_weekend_day]

/-- C9: with the other filters fixed, `day_type = 'weekday'` and
`day_type = 'weekend'` partition the rows selected by `day_type = 'all'`:
the two results are disjoint, every `'all'` row lands in exactly one side,
and their lengths add up. -/
theorem claim_C9_day_type_partition (taxi : List MergedRow) (inp : FilterInput) :
    (∀ r, ¬(r ∈ update_filtered_data taxi { inp with day_type := "weekday" } ∧
            r ∈ update_filtered_data taxi { inp with day_type := "weekend" })) ∧
    (∀ r, r ∈ update_filtered_data taxi { inp with day_type := "all" } ↔
          (r ∈ update_filtered_data taxi { inp with day_type := "weekday" } ∨
           r ∈ update_filtered_data taxi { inp with day_type := "weekend" })) ∧
    (update_filtered_data taxi { inp with day_type := "weekday" }).length +
      (update_filtered_data taxi { inp with day_type := "weekend" }).length =
      (update_filtered_data taxi { inp with day_type := "all" }).length := by
  refine ⟨?_, ?_, ?_⟩
  · rintro r ⟨hrW, hrE⟩
    rw [update_eq_row_passes] at hrW hrE
    have pW := (List.mem_filter.mp hrW).2
    have pE := (List.mem_filter.mp hrE).2
    rw [decide_eq_true_eq] at pW pE
    exact absurd ((row_passes_day_type_split inp r).2.mp pE).2
      ((row_passes_day_type_split inp r).1.mp pW).2
  · intro r
    rw [update_eq_row_passes, update_eq_row_passes, update_eq_row_passes]
    simp only [List.mem_filter, decide_eq_true_eq]
    constructor
    · rintro ⟨hr, hA⟩
      by_cases hw : (r.day_of_week = "Saturday" ∨ r.day_of_week = "Sunday")
      · exact Or.inr ⟨hr, (row_passes_day_type_split inp r).2.mpr ⟨hA, hw⟩⟩
      · exact Or.inl ⟨hr, (row_passes_day_type_split inp r).1.mpr ⟨hA, hw⟩⟩
    · rintro (⟨hr, hW⟩ | ⟨hr, hE⟩)
      · exact ⟨hr, ((row_passes_day_type_split inp r).1.mp hW).1⟩
      · exact ⟨hr, ((row_passes_day_type_split inp r).2.mp hE).1⟩
  · rw [update_eq_row_passes, update_eq_row_passes, update_eq_row_passes,
      ← List.countP_eq_length_filter, ← List.countP_eq_length_filter,
      ← List.countP_eq_length_filter]
    have e1 : taxi.countP (fun r => decide (row_passes { inp with day_type := "weekday" } r)) =
        taxi.countP (fun r =>
          decide (row_passes { inp with day_type := "all" } r) && ! is_weekend_day r) :=
      List.countP_congr (fun x _ => by
        rw [(row_passes_day_type_split_bool inp x).1])
    have e2 : taxi.countP (fun r => decide (row_passes { inp with day_type := "weekend" } r)) =
        taxi.countP (fun r =>
          decide (row_passes { inp with day_type := "all" } r) && is_weekend_day r) :=
      List.countP_congr (fun x _ => by
        rw [(row_passes_day_type_split_bool inp x).2])
    rw [e1, e2]
    exact countP_and_not_add taxi
      (fun r => decide (row_passes { inp with day_type := "all" } r)) is_weekend_day

/-- Witness for C9 at a concrete table, setting and row. -/
theorem claim_C9_witness :
    ¬(sampleMergedRow ∈ update_filtered_data sampleTaxiTable
        { sampleInp with day_type := "weekday" } ∧
      sampleMergedRow ∈ update_filtered_data sampleTaxiTable
        { sampleInp with day_type := "weekend" }) ∧
    (sampleMergedRow ∈ update_filtered_data sampleTaxiTable
        { sampleInp with day_type := "all" } ↔
      (sampleMergedRow ∈ update_filtered_data sampleTaxiTable
        { sampleInp with day_type := "weekday" } ∨
       sampleMergedRow ∈ update_filtered_data sampleTaxiTable
        { sampleInp with day_type := "weekend" })) ∧
    (update_filtered_data sampleTaxiTable { sampleInp with day_type := "weekday" }).length +
      (update_filtered_data sampleTaxiTable { sampleInp with day_type := "weekend" }).length =
      (update_filtered_data sampleTaxiTable { sampleInp with day_type := "all" }).length :=
  ⟨(claim_C9_day_type_partition sampleTaxiTable sampleInp).1 sampleMergedRow,
   (claim_C9_day_type_partition sampleTaxiTable sampleInp).2.1 sampleMergedRow,
   (claim_C9_day_type_partition sampleTaxiTable sampleInp).2.2⟩

/-! ## C7: callbacks never mutate the shared table -/

/-- One callback step leaves the shared table untouched. -/
theorem run_callback_preserves_taxi (st : AppState) (c : Callback) :
    (run_callback st c).1.taxi_df = st.taxi_df := by
  cases c <;> cases h : st.filtered_store <;> simp [run_callback, h]

/-- C7: no filter or chart callback mutates the shared in-memory trip
table: after every sequence of callback invocations the global `taxi_df`
is unchanged. -/
theorem claim_C7_no_table_mutation (st : AppState) (cs : List Callback) :
    (run_callbacks st cs).taxi_df = st.taxi_df := by
  induction cs generalizing st with
  | nil => rfl
  | cons c cs ih =>
      have h1 : run_callbacks st (c :: cs) = run_callbacks (run_callback st c).1 cs := rfl
      rw [h1, ih, run_callback_preserves_taxi]

/-! ## C10: lookup misses fall back to Unknown -/

/-- C10: payment codes outside 1-5 name to `'Unknown'`; location ids absent
from the zone lookup enrich to `'Unknown'` zone and borough; and an
unavailable GeoJSON produces the empty lookup. -/
theorem claim_C10_lookup_misses :
    (∀ c : ℤ, ¬(c = 1 ∨ c = 2 ∨ c = 3 ∨ c = 4 ∨ c = 5) → payment_map c = "Unknown") ∧
    (∀ (zl : List (Option ℤ × ZoneInfo)) (c : CleanRow),
      (zone_lookup_get zl (some c.PULocationID) = none →
        (enrichRow zl c).pickup_zone = "Unknown" ∧
        (enrichRow zl c).pickup_borough = "Unknown") ∧
      (zone_lookup_get zl (some c.DOLocationID) = none →
        (enrichRow zl c).dropoff_zone = "Unknown" ∧
        (enrichRow zl c).dropoff_borough = "Unknown")) ∧
    create_zone_lookup none = [] := by
  refine ⟨?_, ?_, rfl⟩
  · intro c h
    push_neg at h
    obtain ⟨h1, h2, h3, h4, h5⟩ := h
    simp [payment_map, h1, h2, h3, h4, h5]
  · intro zl c
    constructor <;> intro h <;>
      simp [enrichRow, zone_name_of, borough_of, h]

/-- Witness for C10: code 9 and an empty lookup at a concrete row. -/
theorem claim_C10_witness :
    payment_map 9 = "Unknown" ∧
    ((enrichRow [] sampleCleanRow).pickup_zone = "Unknown" ∧
     (enrichRow [] sampleCleanRow).pickup_borough = "Unknown") ∧
    ((enrichRow [] sampleCleanRow).dropoff_zone = "Unknown" ∧
     (enrichRow [] sampleCleanRow).dropoff_borough = "Unknown") ∧
    create_zone_lookup none = [] :=
  ⟨claim_C10_lookup_misses.1 9 (by decide),
   (claim_C10_lookup_misses.2.1 [] sampleCleanRow).1 rfl,
   (claim_C10_lookup_misses.2.1 [] sampleCleanRow).2 rfl,
   claim_C10_lookup_misses.2.2⟩

/-! ## C6: the cleaned-table invariant -/

/-- Every row produced by `_clean_taxi_data` satisfies the row invariant. -/
theorem mem_clean_good {df : List RawRow} {c : CleanRow}
    (hc : c ∈ _clean_taxi_data df) : good_clean_row c = true := by
  unfold _clean_taxi_data at hc
  simp only [List.mem_filter, List.mem_filterMap, decide_eq_true_eq,
    Bool.and_eq_true] at hc
  obtain ⟨⟨r, hr, hcr⟩, hdur⟩ := hc
  obtain ⟨⟨⟨⟨hrdf, hdt⟩, hfare⟩, hdist⟩, hpass⟩ := hr
  obtain ⟨p, hp⟩ := Option.isSome_iff_exists.mp hdt.1
  obtain ⟨q, hq⟩ := Option.isSome_iff_exists.mp hdt.2
  rw [toCleanRow, hp, hq] at hcr
  simp only [Option.some.injEq] at hcr
  subst hcr
  unfold good_clean_row
  rw [decide_eq_true_eq]
  exact ⟨hfare, hdist, hpass, hdur, by simp [hp], by simp [hq]⟩

/-- Every merged row stems from a row of the taxi input of the join, whose
enriched columns it carries unchanged. -/
theorem merged_row_src {taxi : List EnrichedRow} {weather : List WeatherRow}
    {m : MergedRow} (hm : m ∈ merge_weather_data taxi weather) :
    ∃ t ∈ taxi, m.toEnrichedRow = t := by
  unfold merge_weather_data at hm
  rw [List.mem_flatMap] at hm
  obtain ⟨t, ht, hmem⟩ := hm
  refine ⟨t, ht, ?_⟩
  simp only at hmem
  split at hmem
  · simp only [List.mem_singleton] at hmem
    subst hmem
    rfl
  · obtain ⟨w, -, hw⟩ := List.mem_map.mp hmem
    subst hw
    rfl

/-- C6: every row of the cleaned table satisfies the value-range checks
(fare in (0,300], distance in (0,100], passengers in (0,8], duration in
(0,480]) and carries both datetimes, and the same invariant holds for the
enriched-and-merged shared table that all downstream operations consume. -/
theorem claim_C6_clean_invariant (df : List RawRow) (zl : List (Option ℤ × ZoneInfo))
    (bt : ℤ → ℚ) (draws : ℕ → WeatherDraw) :
    ((_clean_taxi_data df).all good_clean_row = true) ∧
    ((merge_weather_data (enrich_taxi_data_with_zones (_clean_taxi_data df) zl)
        (generate_synthetic_weather bt draws
          (enrich_taxi_data_with_zones (_clean_taxi_data df) zl))).all
      (fun m => good_clean_row m.toEnrichedRow.toCleanRow) = true) := by
  constructor
  · rw [List.all_eq_true]
    exact fun c hc => mem_clean_good hc
  · rw [List.all_eq_true]
    intro m hm
    obtain ⟨t, ht, hmt⟩ := merged_row_src hm
    obtain ⟨c, hcmem, hct⟩ := List.mem_map.mp ht
    have h1 : m.toEnrichedRow.toCleanRow = c := by
      rw [hmt, ← hct]
      rfl
    rw [h1]
    exact mem_clean_good hcmem

/-! ## C8: one weather row per date, length-preserving left join -/

theorem mem_uniqueFirst {α : Type} [DecidableEq α] {a : α} {l : List α} :
    a ∈ uniqueFirst l ↔ a ∈ l := by
  induction l with
  | nil => simp [uniqueFirst]
  | cons x xs ih =>
      simp only [uniqueFirst, List.mem_cons, List.mem_filter, decide_eq_true_eq]
      constructor
      · rintro (rfl | ⟨h, -⟩)
        · exact Or.inl rfl
        · exact Or.inr (ih.mp h)
      · rintro (rfl | h)
        · exact Or.inl rfl
        · by_cases hax : a = x
          · exact Or.inl hax
          · exact Or.inr ⟨ih.mpr h, hax⟩

theorem nodup_uniqueFirst {α : Type} [DecidableEq α] (l : List α) :
    (uniqueFirst l).Nodup := by
  induction l with
  | nil => exact List.nodup_nil
  | cons x xs ih =>
      simp only [uniqueFirst]
      refine List.nodup_cons.mpr ⟨?_, List.Nodup.filter _ ih⟩
      intro hx
      rcases List.mem_filter.mp hx with ⟨-, hneq⟩
      rw [decide_eq_true_eq] at hneq
      exact hneq rfl

theorem mkWeatherRow_date (bt : ℤ → ℚ) (dr : WeatherDraw) (d : ℤ) :
    (mkWeatherRow bt dr d).date = d := rfl

theorem weather_map_date (bt : ℤ → ℚ) (draws : ℕ → WeatherDraw) :
    ∀ (n : ℕ) (ds : List ℤ),
      ((List.enumFrom n ds).map (fun p => mkWeatherRow bt (draws p.1) p.2)).map
        (fun w => w.date) = ds := by
  intro n ds
  induction ds generalizing n with
  | nil => rfl
  | cons d ds ih => simp [List.enumFrom, mkWeatherRow_date, ih]

theorem filter_date_length (L : List WeatherRow) (d : ℤ) :
    (L.filter (fun w => decide (w.date = d))).length =
      List.count d (L.map (fun w => w.date)) := by
  induction L with
  | nil => rfl
  | cons w ws ih =>
      by_cases h : w.date = d <;>
        simp [List.filter_cons, List.count_cons, h, ih]

theorem count_eq_one_of_nodup_mem {l : List ℤ} {d : ℤ} (hn : l.Nodup) (hm : d ∈ l) :
    List.count d l = 1 :=
  le_antisymm (List.nodup_iff_count_le_one.mp hn d) (List.count_pos_iff.mpr hm)

/-- When each taxi row has exactly one matching weather row, the left join
preserves the row count and populates every weather column. -/
theorem merge_one_match (taxi : List EnrichedRow) (weather : List WeatherRow)
    (h : ∀ t ∈ taxi, (weather.filter (fun w => decide (w.date = t.date))).length = 1) :
    (merge_weather_data taxi weather).length = taxi.length ∧
    (merge_weather_data taxi weather).all
      (fun m => m.temperature.isSome && m.is_rainy.isSome &&
        m.precipitation_inches.isSome) = true := by
  induction taxi with
  | nil => exact ⟨rfl, rfl⟩
  | cons t ts ih =>
      have ht := h t (List.mem_cons_self t ts)
      obtain ⟨w, hw⟩ := List.length_eq_one.mp ht
      have hmerge : merge_weather_data (t :: ts) weather =
          ({ t with
              temperature := some w.temperature,
              is_rainy := some w.is_rainy,
              precipitation_inches := some w.precipitation_inches } : MergedRow) ::
            merge_weather_data ts weather := by
        unfold merge_weather_data
        rw [List.flatMap_cons]
        simp [hw]
      obtain ⟨ih1, ih2⟩ := ih (fun x hx => h x (List.mem_cons_of_mem _ hx))
      constructor
      · rw [hmerge, List.length_cons, ih1]
        rfl
      · rw [hmerge]
        simp only [List.all_cons, Option.isSome_some, Bool.and_self, Bool.true_and]
        exact ih2

/-- C8: the synthetic weather table has exactly one row per distinct date
of the taxi table (its date column is the unique-date list, without
duplicates), and the weather left join returns exactly one output row per
taxi row with every weather column populated. -/
theorem claim_C8_weather_join (bt : ℤ → ℚ) (draws : ℕ → WeatherDraw)
    (df : List EnrichedRow) :
    ((generate_synthetic_weather bt draws df).map (fun w => w.date) =
      uniqueFirst (df.map (fun r => r.date))) ∧
    ((generate_synthetic_weather bt draws df).map (fun w => w.date)).Nodup ∧
    (merge_weather_data df (generate_synthetic_weather bt draws df)).length =
      df.length ∧
    (merge_weather_data df (generate_synthetic_weather bt draws df)).all
      (fun m => m.temperature.isSome && m.is_rainy.isSome &&
        m.precipitation_inches.isSome) = true := by
  have hmap : (generate_synthetic_weather bt draws df).map (fun w => w.date) =
      uniqueFirst (df.map (fun r => r.date)) := by
    unfold generate_synthetic_weather
    exact weather_map_date bt draws 0 _
  have hone : ∀ t ∈ df, ((generate_synthetic_weather bt draws df).filter
      (fun w => decide (w.date = t.date))).length = 1 := by
    intro t ht
    rw [filter_date_length, hmap]
    exact count_eq_one_of_nodup_mem (nodup_uniqueFirst _)
      (mem_uniqueFirst.mpr (List.mem_map_of_mem _ ht))
  obtain ⟨hlen, hall⟩ := merge_one_match df _ hone
  exact ⟨hmap, hmap ▸ nodup_uniqueFirst _, hlen, hall⟩

/-! ## Evaluation helpers for the concrete sample data -/

theorem ratFloor_intCast (m : ℤ) : ratFloor ((m : ℤ) : ℚ) = m := by
  unfold ratFloor
  rw [Rat.num_intCast, Rat.den_intCast]
  push_cast
  exact Int.fdiv_one m

theorem roundHalfEven_intCast (m : ℤ) : roundHalfEven ((m : ℤ) : ℚ) = m := by
  simp only [roundHalfEven, ratFloor_intCast]
  norm_num

theorem round2_intCast (m : ℤ) : round2 ((m : ℤ) : ℚ) = ((m : ℤ) : ℚ) := by
  unfold round2
  have h : ((m : ℤ) : ℚ) * 100 = (((m * 100 : ℤ)) : ℚ) := by push_cast; ring
  rw [h, roundHalfEven_intCast]
  push_cast
  ring

theorem sample_toCleanRow : toCleanRow sampleRaw = some sampleCleanRow := by
  have hdur : round2 (((1672531800 - 1672531200 : ℤ) : ℚ) / 60) = 10 := by
    have h : (((1672531800 - 1672531200 : ℤ) : ℚ) / 60) = ((10 : ℤ) : ℚ) := by norm_num
    rw [h, round2_intCast]
    norm_num
  have htip : round2 ((2 : ℚ) / 10 * 100) = 20 := by
    have h : ((2 : ℚ) / 10 * 100) = ((20 : ℤ) : ℚ) := by norm_num
    rw [h, round2_intCast]
    norm_num
  have hppm : round2 ((10 : ℚ) / 2) = 5 := by
    have h : ((10 : ℚ) / 2) = ((5 : ℤ) : ℚ) := by norm_num
    rw [h, round2_intCast]
    norm_num
  have hstep : toCleanRow sampleRaw = some
      { toRawRow := sampleRaw,
        date := Int.fdiv 1672531200 86400,
        hour := (Int.emod 1672531200 86400) / 3600,
        day_of_week := day_name (Int.fdiv 1672531200 86400),
        month := civil_month (Int.fdiv 1672531200 86400),
        trip_duration_minutes := round2 (((1672531800 - 1672531200 : ℤ) : ℚ) / 60),
        tip_percentage := round2 ((2 : ℚ) / 10 * 100),
        price_per_mile := round2 ((10 : ℚ) / 2),
        payment_type_name := payment_map 1 } := rfl
  rw [hstep, hdur, htip, hppm]
  have hday : day_name (Int.fdiv 1672531200 86400) = "Sunday" := by decide
  have hmonth : civil_month (Int.fdiv 1672531200 86400) = 1 := by decide
  have hdate : Int.fdiv 1672531200 86400 = 19358 := by decide
  have hhour : (Int.emod 1672531200 86400) / 3600 = (0 : ℤ) := by decide
  rw [hday, hmonth, hdate, hhour]
  rfl

theorem sample_sample_if : sample_if_large id 50000 [sampleRaw] = [sampleRaw] := rfl

theorem sample_clean_eval : _clean_taxi_data [sampleRaw] = [sampleCleanRow] := by
  have c1 : (sampleRaw.tpep_pickup_datetime.isSome &&
      sampleRaw.tpep_dropoff_datetime.isSome) = true := rfl
  have c2 : decide (0 < sampleRaw.fare_amount ∧ sampleRaw.fare_amount ≤ 300) = true := by
    decide
  have c3 : decide (0 < sampleRaw.trip_distance ∧ sampleRaw.trip_distance ≤ 100) = true := by
    decide
  have c4 : decide (0 < sampleRaw.passenger_count ∧ sampleRaw.passenger_count ≤ 8) = true := by
    decide
  have c5 : decide (0 < sampleCleanRow.trip_duration_minutes ∧
      sampleCleanRow.trip_duration_minutes ≤ 480) = true := by decide
  unfold _clean_taxi_data
  simp only [List.filter_cons, List.filter_nil, List.filterMap_cons, List.filterMap_nil,
    c1, c2, c3, c4, if_true, sample_toCleanRow, c5]

/-! ## Loader lemmas -/

/-- The cleaned table produced by `load_taxi_data` does not depend on the
pickle-cache file. -/
theorem load_taxi_data_fst (rp : Option (List RawRow)) (cb cb' : Option CacheFile)
    (netP : Except String (List RawRow)) (sampler : List RawRow → List RawRow) (n : ℕ) :
    (load_taxi_data ⟨rp, cb⟩ netP sampler n).1 =
      (load_taxi_data ⟨rp, cb'⟩ netP sampler n).1 := by
  cases rp <;> cases netP <;> rfl

/-- On any run that does not serve the pickle snapshot (caching off, cache
file missing, or cache file unreadable), the returned data is the
recompute-path data. -/
theorem load_data_eq_miss (disk : Disk) (uc : Bool)
    (netP : Except String (List RawRow)) (sampler : List RawRow → List RawRow) (n : ℕ)
    (netG : Except String GeoJson) (bt : ℤ → ℚ) (draws : ℕ → WeatherDraw) (wOk : Bool)
    (h : uc = false ∨ disk.cacheBlob = none ∨ ∃ m, disk.cacheBlob = some (.corrupt m)) :
    (load_all_data disk uc netP sampler n netG bt draws wOk).data =
      miss_data disk netP sampler n netG bt draws := by
  rcases disk with ⟨rp, cb⟩
  rcases h with rfl | h' | ⟨m, h'⟩
  · simp only [load_all_data, miss_data]
    by_cases hc : (load_taxi_data ⟨rp, cb⟩ netP sampler n).1.isEmpty <;> simp [hc]
  · simp only at h'
    subst h'
    cases uc <;>
      · simp only [load_all_data, miss_data]
        by_cases hc : (load_taxi_data ⟨rp, none⟩ netP sampler n).1.isEmpty <;> simp [hc]
  · simp only at h'
    subst h'
    cases uc <;>
      · simp only [load_all_data, miss_data]
        by_cases hc : (load_taxi_data ⟨rp, some (.corrupt m)⟩ netP sampler n).1.isEmpty <;>
          simp [hc]

/-- The recompute-path data does not depend on the pickle-cache file. -/
theorem miss_data_cache_irrelevant (rp : Option (List RawRow)) (cb cb' : Option CacheFile)
    (netP : Except String (List RawRow)) (sampler : List RawRow → List RawRow) (n : ℕ)
    (netG : Except String GeoJson) (bt : ℤ → ℚ) (draws : ℕ → WeatherDraw) :
    miss_data ⟨rp, cb⟩ netP sampler n netG bt draws =
      miss_data ⟨rp, cb'⟩ netP sampler n netG bt draws := by
  simp only [miss_data, load_taxi_data_fst rp cb cb' netP sampler n]

/-! ## C5: cache-read failure falls back to recomputation -/

/-- C5: a run whose cache file is unreadable returns exactly the data of a
run with no cache file at all (the full recomputation), and a failing cache
write never changes the returned data. -/
theorem claim_C5_cache_fallback (rp : Option (List RawRow)) (msg : String)
    (netP : Except String (List RawRow)) (sampler : List RawRow → List RawRow) (n : ℕ)
    (netG : Except String GeoJson) (bt : ℤ → ℚ) (draws : ℕ → WeatherDraw) (wOk : Bool) :
    ((load_all_data ⟨rp, some (.corrupt msg)⟩ true netP sampler n netG bt draws wOk).data =
      (load_all_data ⟨rp, none⟩ true netP sampler n netG bt draws wOk).data) ∧
    (∀ (disk : Disk) (uc : Bool),
      (load_all_data disk uc netP sampler n netG bt draws false).data =
        (load_all_data disk uc netP sampler n netG bt draws true).data) := by
  constructor
  · rw [load_data_eq_miss _ _ _ _ _ _ _ _ _ (Or.inr (Or.inr ⟨msg, rfl⟩)),
      load_data_eq_miss _ _ _ _ _ _ _ _ _ (Or.inr (Or.inl rfl))]
    exact miss_data_cache_irrelevant rp _ none netP sampler n netG bt draws
  · intro disk uc
    rcases disk with ⟨rp2, cb⟩
    cases uc with
    | false =>
        rw [load_data_eq_miss _ _ _ _ _ _ _ _ _ (Or.inl rfl),
          load_data_eq_miss _ _ _ _ _ _ _ _ _ (Or.inl rfl)]
    | true =>
        rcases cb with _ | cf
        · rw [load_data_eq_miss _ _ _ _ _ _ _ _ _ (Or.inr (Or.inl rfl)),
            load_data_eq_miss _ _ _ _ _ _ _ _ _ (Or.inr (Or.inl rfl))]
        · rcases cf with d | m
          · rfl
          · rw [load_data_eq_miss _ _ _ _ _ _ _ _ _ (Or.inr (Or.inr ⟨m, rfl⟩)),
              load_data_eq_miss _ _ _ _ _ _ _ _ _ (Or.inr (Or.inr ⟨m, rfl⟩))]

/-! ## C3: which load failures abort the process -/

/-- Counterexample to C3 as stated: a run in which the taxi parquet loads
but the GeoJSON fetch fails does not abort — the dashboard serves. -/
theorem claim_C3_counterexample :
    (app_startup Disk.empty true (.ok [sampleRaw]) id 50000
      (.error "connection error") (fun _ => 0) (fun _ => sampleDraw) true).isServing =
      true := by
  unfold app_startup
  rw [load_data_eq_miss _ _ _ _ _ _ _ _ _ (Or.inr (Or.inl rfl))]
  simp only [miss_data, load_taxi_data, Disk.empty, sample_sample_if, sample_clean_eval]
  rfl

/-- C3 amended: a network or parse failure of the parquet trip download
aborts the process with the printed message, but a failure of the GeoJSON
download does not abort — the dashboard serves with no GeoJSON and an empty
zone lookup. -/
theorem claim_C3_amended_aborts (disk : Disk) (uc : Bool)
    (sampler : List RawRow → List RawRow) (n : ℕ) (netGeo : Except String GeoJson)
    (bt : ℤ → ℚ) (draws : ℕ → WeatherDraw) (wOk : Bool)
    (hmiss : uc = false ∨ disk.cacheBlob = none ∨ ∃ m, disk.cacheBlob = some (.corrupt m)) :
    (∀ msg, disk.rawParquet = none →
      app_startup disk uc (.error msg) sampler n netGeo bt draws wOk =
        .aborted "✗ Failed to load data. Exiting.") ∧
    (∀ (raw : List RawRow) (msg : String),
      (load_taxi_data disk (.ok raw) sampler n).1 ≠ [] →
      ∃ d, app_startup disk uc (.ok raw) sampler n (.error msg) bt draws wOk =
          .serving d ∧ d.zone_lookup = [] ∧ d.geojson = none) := by
  constructor
  · intro msg hrp
    unfold app_startup
    rw [load_data_eq_miss _ _ _ _ _ _ _ _ _ hmiss]
    rcases disk with ⟨rp, cb⟩
    simp only at hrp
    subst hrp
    rfl
  · intro raw msg hne
    unfold app_startup
    rw [load_data_eq_miss _ _ _ _ _ _ _ _ _ hmiss]
    have hie : (load_taxi_data disk (Except.ok raw) sampler n).1.isEmpty = false := by
      rcases hh : (load_taxi_data disk (Except.ok raw) sampler n).1 with _ | ⟨x, xs⟩
      · exact absurd hh hne
      · rfl
    simp only [miss_data, hie, Bool.false_eq_true, if_false]
    exact ⟨_, rfl, rfl, rfl⟩

/-- Witness for the amended C3: a concrete failing parquet fetch aborts. -/
theorem claim_C3_amended_witness :
    app_startup Disk.empty true (.error "timeout") id 50000 (.ok sampleGeo)
      (fun _ => 0) (fun _ => sampleDraw) true =
      .aborted "✗ Failed to load data. Exiting." :=
  (claim_C3_amended_aborts Disk.empty true id 50000 (.ok sampleGeo) (fun _ => 0)
    (fun _ => sampleDraw) true (Or.inr (Or.inl rfl))).1 "timeout" rfl

/-! ## C4: each remote input fetched once across two runs -/

/-- C4: starting from an empty disk, a successful load fetches the parquet
and the GeoJSON exactly once each and leaves both cached on disk, and a
second load with the same parameters performs no network fetch and returns
the same data from disk. -/
theorem claim_C4_fetch_once (raw : List RawRow) (g : GeoJson)
    (sampler : List RawRow → List RawRow) (n : ℕ) (bt : ℤ → ℚ) (draws : ℕ → WeatherDraw)
    (h : _clean_taxi_data (sample_if_large sampler n raw) ≠ []) :
    (load_all_data Disk.empty true (.ok raw) sampler n (.ok g) bt draws true).parquetFetches
        = 1 ∧
    (load_all_data Disk.empty true (.ok raw) sampler n (.ok g) bt draws true).geoFetches
        = 1 ∧
    (load_all_data
        (load_all_data Disk.empty true (.ok raw) sampler n (.ok g) bt draws true).disk
        true (.ok raw) sampler n (.ok g) bt draws true).parquetFetches = 0 ∧
    (load_all_data
        (load_all_data Disk.empty true (.ok raw) sampler n (.ok g) bt draws true).disk
        true (.ok raw) sampler n (.ok g) bt draws true).geoFetches = 0 ∧
    (load_all_data
        (load_all_data Disk.empty true (.ok raw) sampler n (.ok g) bt draws true).disk
        true (.ok raw) sampler n (.ok g) bt draws true).data =
      (load_all_data Disk.empty true (.ok raw) sampler n (.ok g) bt draws true).data := by
  have hie : (_clean_taxi_data (sample_if_large sampler n raw)).isEmpty = false := by
    rcases hh : _clean_taxi_data (sample_if_large sampler n raw) with _ | ⟨x, xs⟩
    · exact absurd hh h
    · rfl
  refine ⟨?_, ?_, ?_, ?_, ?_⟩ <;>
    simp [load_all_data, load_taxi_data, Disk.empty, hie]

/-- Witness for C4 at the concrete sample parquet and GeoJSON. -/
theorem claim_C4_witness :
    (load_all_data Disk.empty true (.ok [sampleRaw]) id 50000 (.ok sampleGeo)
        (fun _ => 0) (fun _ => sampleDraw) true).parquetFetches = 1 ∧
    (load_all_data Disk.empty true (.ok [sampleRaw]) id 50000 (.ok sampleGeo)
        (fun _ => 0) (fun _ => sampleDraw) true).geoFetches = 1 ∧
    (load_all_data
        (load_all_data Disk.empty true (.ok [sampleRaw]) id 50000 (.ok sampleGeo)
          (fun _ => 0) (fun _ => sampleDraw) true).disk
        true (.ok [sampleRaw]) id 50000 (.ok sampleGeo)
        (fun _ => 0) (fun _ => sampleDraw) true).parquetFetches = 0 ∧
    (load_all_data
        (load_all_data Disk.empty true (.ok [sampleRaw]) id 50000 (.ok sampleGeo)
          (fun _ => 0) (fun _ => sampleDraw) true).disk
        true (.ok [sampleRaw]) id 50000 (.ok sampleGeo)
        (fun _ => 0) (fun _ => sampleDraw) true).geoFetches = 0 ∧
    (load_all_data
        (load_all_data Disk.empty true (.ok [sampleRaw]) id 50000 (.ok sampleGeo)
          (fun _ => 0) (fun _ => sampleDraw) true).disk
        true (.ok [sampleRaw]) id 50000 (.ok sampleGeo)
        (fun _ => 0) (fun _ => sampleDraw) true).data =
      (load_all_data Disk.empty true (.ok [sampleRaw]) id 50000 (.ok sampleGeo)
        (fun _ => 0) (fun _ => sampleDraw) true).data :=
  claim_C4_fetch_once [sampleRaw] sampleGeo id 50000 (fun _ => 0) (fun _ => sampleDraw)
    (by rw [sample_sample_if, sample_clean_eval]; simp)

end NycTaxiPulse
